import Mathlib

/-!
Verification of the job-digest pipeline in `src/job_bot.py` against its
natural-language specification.  The script is embedded shallowly: raw
search-result items become the structure `RawItem`, normalized job records
become `Job`, and the aggregation / dedup / enrichment / rendering stages of
`main` become pure Lean functions over explicit oracles for the external
collaborators (search client, language model, clock).
-/

set_option linter.unusedVariables false

/-- One entry of the raw `apply_options` / `related_links` arrays; only its
`link` field is ever read by the script (`entry.get("link")`). -/
structure LinkEntry where
  link : Option String
deriving DecidableEq

/-- A well-formed raw search-result item, one element of `jobs_results`.
`none` on an outer `Option` means the key is absent from the JSON object.
`company_name` distinguishes an absent key (outer `none`) from a key that is
present with a JSON `null` value (`some none`), because `item.get` with a
default treats those differently. -/
structure RawItem where
  title : Option String
  company_name : Option (Option String)
  location : Option String
  detected_extensions : Option (List (String × String))
  description : Option String
  job_id : Option String
  apply_options : Option (List LinkEntry)
  related_links : Option (List LinkEntry)
  share_link : Option String
deriving DecidableEq

/-- The normalized job record built by `main`'s inner loop (lines 84-100 of
`job_bot.py`); `outreach` is added later by the enrichment loop, so it is
`none` on a freshly normalized record. -/
structure Job where
  title : Option String
  company_name : Option String
  location : Option String
  via : Option String
  extensions : List (String × String)
  description : String
  apply_link : Option String
  job_id : Option String
  outreach : Option String
deriving DecidableEq

/-- Python `a or b` for two optional strings: `None` and the empty string are
falsy, so `b` is returned exactly when `a` is absent or empty. -/
def pyOrOpt (a b : Option String) : Option String :=
  match a with
  | none => b
  | some s => if s = "" then b else some s

/-- Python `a or b` where the result is used as a plain string
(`j.get("title") or ""` and friends in the rendering loop). -/
def pyOrStr (a : Option String) (b : String) : String :=
  match a with
  | none => b
  | some s => if s = "" then b else s

/-- `(item.get("related_links") or [{}])[0].get("link")`: the link of the
first related-links entry, or `None` when the list is absent or empty (the
placeholder `{}` entry has no `link` key). -/
def firstRelatedLink (item : RawItem) : Option String :=
  match item.related_links.getD [] with
  | [] => none
  | e :: _ => e.link

/-- The result normalizer: lines 84-100 of `job_bot.py`, mapping one raw item
(together with the company name used in the query) to a job record. -/
def normalizeItem (company : String) (item : RawItem) : Job :=
  let base : Job :=
    { title := item.title
      company_name :=
        match item.company_name with
        | none => some company
        | some v => v
      location := item.location
      via := (item.detected_extensions.getD []).lookup "via"
      extensions := item.detected_extensions.getD []
      description := item.description.getD ""
      apply_link := none
      job_id := item.job_id
      outreach := none }
  match item.apply_options.getD [] with
  | e :: _ => { base with apply_link := e.link }
  | [] => { base with apply_link := pyOrOpt (firstRelatedLink item) item.share_link }

/-- The dedup identity of a record: `(j.get("title"), j.get("company_name"))`. -/
def jobKey (j : Job) : Option String × Option String :=
  (j.title, j.company_name)

/-- The dedup loop of `main` (lines 108-116): `seen` is the set of keys already
kept, records whose key was seen are skipped. -/
def dedupAux : List Job → List (Option String × Option String) → List Job
  | [], _ => []
  | j :: rest, seen =>
    if jobKey j ∈ seen then dedupAux rest seen
    else j :: dedupAux rest (jobKey j :: seen)

/-- Deduplication as run by the script, starting from an empty `seen` set. -/
def dedup (jobs : List Job) : List Job :=
  dedupAux jobs []

/-- Specification-side description of "one record per key, in order of first
occurrence": keep the head key and recur on the tail with all copies of that
key removed. -/
def firstSeen {α : Type} [DecidableEq α] : List α → List α
  | [] => []
  | k :: rest => k :: firstSeen (rest.filter (fun x => x ≠ k))
  termination_by l => l.length
  decreasing_by
    simp only [List.length_cons]
    exact Nat.lt_succ_of_le (List.length_filter_le _ _)

/-- Python slicing `l[:n]` for a possibly negative `n` (line 117). -/
def pySliceTo {α : Type} (n : Int) (l : List α) : List α :=
  if 0 ≤ n then l.take n.toNat
  else l.take ((l.length : Int) + n).toNat

/-- Python `s.strip()` (with ASCII whitespace): drop leading and trailing
whitespace characters. -/
def pyStrip (s : String) : String :=
  String.mk (((s.data.dropWhile Char.isWhitespace).reverse.dropWhile
    Char.isWhitespace).reverse)

/-- The numeric value of a decimal digit character, if it is one. -/
def digitVal? (c : Char) : Option Nat :=
  if '0' ≤ c ∧ c ≤ '9' then some (c.toNat - '0'.toNat) else none

/-- Accumulate the value of a digit string left to right. -/
def digitsValAux : List Char → Nat → Option Nat
  | [], acc => some acc
  | c :: rest, acc =>
    match digitVal? c with
    | none => none
    | some d => digitsValAux rest (acc * 10 + d)

/-- The value of a non-empty all-digit character list. -/
def digitsVal? : List Char → Option Nat
  | [] => none
  | ds => digitsValAux ds 0

/-- Python `int(s)` on a string: optional surrounding whitespace, optional
single sign, then decimal digits; `none` models the `ValueError` raised
otherwise.  (Digit-group underscores and non-ASCII digits are not
modelled.) -/
def pyInt (s : String) : Option Int :=
  match (pyStrip s).data with
  | '+' :: ds => (digitsVal? ds).map Int.ofNat
  | '-' :: ds => (digitsVal? ds).map (fun n => -(Int.ofNat n))
  | ds => (digitsVal? ds).map Int.ofNat

/-- Truthiness of an optional string in Python (`if OPENAI_API_KEY:`):
`None` and the empty string are falsy. -/
def pyTruthy : Option String → Bool
  | none => false
  | some s => !(s == "")

/-- The query builder of line 80: `f'{ROLE_QUERY} "{company}" ({SITES_HINT})'`. -/
def buildQuery (roleQuery sitesHint company : String) : String :=
  roleQuery ++ " \"" ++ company ++ "\" (" ++ sitesHint ++ ")"

/-- Normalizing one company's `jobs_results` array, appending records one at a
time as the code does.  A list element `Except.error e` models an item on
which normalization raises (malformed JSON shapes such as a non-object item);
the exception aborts the per-item loop, so items after it contribute nothing
while the records appended before it are kept. -/
def normalizeItems (company : String) : List (Except String RawItem) → List Job
  | [] => []
  | Except.ok item :: rest => normalizeItem company item :: normalizeItems company rest
  | Except.error _ :: _ => []

/-- The error text of the first malformed item of a batch, if any: the
exception that the per-item loop raises into the company-level handler. -/
def firstItemError : List (Except String RawItem) → Option String
  | [] => none
  | Except.ok _ :: rest => firstItemError rest
  | Except.error e :: _ => some e

/-- One iteration of the company loop up to the cap check: the records the
company contributes to the accumulator, and the warning lines printed to
standard error.  `search` is the oracle for `google_jobs_search`: it either
returns the (possibly partly malformed) `jobs_results` array for a query or
fails with an exception text. -/
def companyStep (search : String → Except String (List (Except String RawItem)))
    (roleQuery sitesHint company : String) : List Job × List String :=
  match search (buildQuery roleQuery sitesHint company) with
  | Except.ok items =>
      (normalizeItems company items,
        match firstItemError items with
        | some e => ["[warn] " ++ company ++ " query failed: " ++ e]
        | none => [])
  | Except.error e => ([], ["[warn] " ++ company ++ " query failed: " ++ e])

/-- The aggregation loop of lines 79-106: process companies in order,
appending each company's records to the accumulator `jobs`; after each
company (even a failing one) break as soon as `len(jobs) >= MAX_RESULTS`.
Returns the accumulator, the companies actually searched (in call order),
and the warning lines in order. -/
def aggregateAux (search : String → Except String (List (Except String RawItem)))
    (maxResults : Int) (roleQuery sitesHint : String) :
    List String → List Job → List Job × List String × List String
  | [], jobs => (jobs, [], [])
  | company :: rest, jobs =>
    let step := companyStep search roleQuery sitesHint company
    let jobs' := jobs ++ step.1
    if maxResults ≤ (jobs'.length : Int) then
      (jobs', [company], step.2)
    else
      let r := aggregateAux search maxResults roleQuery sitesHint rest jobs'
      (r.1, company :: r.2.1, step.2 ++ r.2.2)

/-- The aggregation stage as run by the script: empty initial accumulator. -/
def aggregate (search : String → Except String (List (Except String RawItem)))
    (maxResults : Int) (roleQuery sitesHint : String) (companies : List String) :
    List Job × List String × List String :=
  aggregateAux search maxResults roleQuery sitesHint companies []

/-- The records one company contributes, ignoring the cap (used to phrase the
accumulator size after a prefix of iterations). -/
def companyBatch (search : String → Except String (List (Except String RawItem)))
    (roleQuery sitesHint company : String) : List Job :=
  (companyStep search roleQuery sitesHint company).1

/-- Accumulator contents after running the loop body over a list of companies
with no cap: concatenation of the per-company batches. -/
def prefixJobs (search : String → Except String (List (Except String RawItem)))
    (roleQuery sitesHint : String) (companies : List String) : List Job :=
  (companies.map (companyBatch search roleQuery sitesHint)).flatten

/-- The fixed placeholder used when no OpenAI key is configured (line 127). -/
def noKeyPlaceholder : String :=
  "(Set OPENAI_API_KEY to auto-generate outreach messaging.)"

/-- The placeholder stored when a generation request raises (line 125). -/
def genErrorPlaceholder (e : String) : String :=
  "(Generate later) Error using OpenAI API: " ++ e

/-- The body of the outreach loop (lines 120-127) for one record; `gen` is the
oracle for `gen_outreach`, failing with the exception text. -/
def enrichJob (key : Option String) (gen : Job → Except String String) (j : Job) : Job :=
  if pyTruthy key then
    match gen j with
    | Except.ok m => { j with outreach := some m }
    | Except.error e => { j with outreach := some (genErrorPlaceholder e) }
  else
    { j with outreach := some noKeyPlaceholder }

/-- The outreach loop over the deduplicated records. -/
def enrich (key : Option String) (gen : Job → Except String String)
    (jobs : List Job) : List Job :=
  jobs.map (enrichJob key gen)

/-- Python `html.escape(s)` with the default `quote=True`. -/
def htmlEscape (s : String) : String :=
  ((((s.replace "&" "&amp;").replace "<" "&lt;").replace ">" "&gt;").replace
    "\"" "&quot;").replace "'" "&#x27;"

/-- One `<tr>` block of the digest table (lines 131-152), for the record at
1-based position `idx`. -/
def renderRow (idx : Nat) (j : Job) : String :=
  let title := htmlEscape (pyOrStr j.title "")
  let comp := htmlEscape (pyOrStr j.company_name "")
  let loc := htmlEscape (pyOrStr j.location "")
  let link := htmlEscape (pyOrStr j.apply_link "#")
  let desc := (htmlEscape ((pyStrip (pyOrStr (some j.description) "")).take 420)).replace "\n" " "
  let outreach := (htmlEscape (pyOrStr j.outreach "")).replace "\n" "<br>"
  "\n        <tr>\n          <td style=\"padding:8px; border-bottom:1px solid #eee; vertical-align:top;\">"
    ++ toString idx
    ++ "</td>\n          <td style=\"padding:8px; border-bottom:1px solid #eee; vertical-align:top;\">\n            <div style=\"font-weight:600\">"
    ++ title
    ++ "</div>\n            <div style=\"color:#555\">"
    ++ comp ++ " — " ++ loc
    ++ "</div>\n            <div style=\"margin-top:6px; font-size:13px; color:#444\">"
    ++ desc
    ++ "</div>\n            <div style=\"margin-top:6px\"><a href=\""
    ++ link
    ++ "\">Apply Link</a></div>\n            <div style=\"margin-top:10px; font-size:13px;\">\n              <div style=\"font-weight:600; margin-bottom:4px;\">DM draft:</div>\n              <div>"
    ++ outreach
    ++ "</div>\n            </div>\n          </td>\n        </tr>\n        "

/-- The table body: the joined rows, or the literal placeholder row when no
records survived (lines 154-157). -/
def renderRows (jobs : List Job) : String :=
  match jobs with
  | [] => "<tr><td colspan=\"2\" style=\"padding:12px;\">No fresh roles found today. Try widening COMPANIES or ROLE_QUERY.</td></tr>"
  | _ => String.intercalate "\n" (jobs.enum.map (fun p => renderRow (p.1 + 1) p.2))

/-- The full HTML body of the digest (lines 160-175); `now` stands for the
formatted `ist_now_str()` timestamp. -/
def renderBody (jobs : List Job) (now : String) : String :=
  "<div style=\"font-family:Inter,Arial,sans-serif; line-height:1.45;\">\n      <h2 style=\"margin:0 0 8px;\">Entry-level SDE / Full-Stack Roles</h2>\n      <div style=\"font-size:13px; color:#666; margin-bottom:12px;\">Generated at "
    ++ now
    ++ "</div>\n      <table cellpadding=\"0\" cellspacing=\"0\" width=\"100%\" style=\"border-collapse:collapse;\">\n        <thead>\n          <tr>\n            <th style=\"text-align:left; padding:8px; border-bottom:2px solid #000;\">#</th>\n            <th style=\"text-align:left; padding:8px; border-bottom:2px solid #000;\">Role</th>\n          </tr>\n        </thead>\n        <tbody>\n          "
    ++ renderRows jobs
    ++ "\n        </tbody>\n      </table>\n      <div style=\"margin-top:16px; font-size:12px; color:#666;\">Tip: Tweak COMPANIES / ROLE_QUERY in env to refine.</div>\n    </div>"

/-- The subject line (line 159). -/
def subjectLine (n : Nat) (now : String) : String :=
  "[Daily SDE Digest] " ++ toString n ++ " roles — " ++ now

/-- The configuration read at the top of `main` (lines 67-76). -/
structure Config where
  SERPAPI_KEY : String
  OPENAI_API_KEY : Option String
  GMAIL_USER : String
  GMAIL_APP_PASSWORD : String
  TO_EMAIL : String
  MAX_RESULTS : Int
  COMPANIES : List String
  ROLE_QUERY : String
  SITES_HINT : String
  DAYS : Int
deriving DecidableEq

/-- The two ways configuration loading can terminate the process early:
`env(..., required=True)` printing to stderr and calling `sys.exit(1)`, or an
uncaught `ValueError` from `int(...)`. -/
inductive ConfigError
  | missingVar (name : String)
  | badInt (name : String) (value : String)
deriving DecidableEq

/-- `env(name, required=True)` (lines 9-14): fail when the variable is unset
or blank after stripping, otherwise return its value. -/
def envReq (lookup : String → Option String) (name : String) : Except ConfigError String :=
  match lookup name with
  | none => Except.error (ConfigError.missingVar name)
  | some s => if pyStrip s == "" then Except.error (ConfigError.missingVar name) else Except.ok s

/-- `blankEnv v` is exactly the condition under which `env(..., required=True)`
exits: the variable is unset, or its value strips to the empty string. -/
def blankEnv : Option String → Bool
  | none => true
  | some s => pyStrip s == ""

/-- The environment variables the script requires, in the order `main` reads
them. -/
def requiredVars : List String :=
  ["SERPAPI_KEY", "GMAIL_USER", "GMAIL_APP_PASSWORD", "TO_EMAIL"]

/-- The default company list of line 73, split and stripped as the code does. -/
def parseCompanies (s : String) : List String :=
  (s.splitOn ",").filterMap (fun c => let t := pyStrip c; if t = "" then none else some t)

/-- Default value of the `COMPANIES` variable. -/
def defaultCompanies : String :=
  "Google, Meta, Amazon, Apple, Netflix, Microsoft, OpenAI, Stripe, Databricks, DoorDash, Airbnb, Uber"

/-- Default value of the `ROLE_QUERY` variable. -/
def defaultRoleQuery : String :=
  "entry level OR new grad full stack OR software engineer"

/-- Default value of the `SITES_HINT` variable. -/
def defaultSitesHint : String :=
  "site:boards.greenhouse.io OR site:jobs.lever.co OR site:careers.microsoft.com OR site:amazon.jobs OR site:meta.com/careers OR site:apple.com/careers OR site:google.com/about/careers OR site:netflixjobs.com OR site:about.google"

/-- Lines 67-76 of `main`, in evaluation order: the first missing required
variable aborts, then `int()` parses `MAX_RESULTS` and (after the string
defaults) `DAYS`. -/
def loadConfig (lookup : String → Option String) : Except ConfigError Config :=
  match envReq lookup "SERPAPI_KEY" with
  | Except.error err => Except.error err
  | Except.ok serpapiKey =>
    let openaiKey := lookup "OPENAI_API_KEY"
    match envReq lookup "GMAIL_USER" with
    | Except.error err => Except.error err
    | Except.ok gmailUser =>
      match envReq lookup "GMAIL_APP_PASSWORD" with
      | Except.error err => Except.error err
      | Except.ok gmailAppPassword =>
        match envReq lookup "TO_EMAIL" with
        | Except.error err => Except.error err
        | Except.ok toEmail =>
          let maxResultsStr := (lookup "MAX_RESULTS").getD "20"
          match pyInt maxResultsStr with
          | none => Except.error (ConfigError.badInt "MAX_RESULTS" maxResultsStr)
          | some maxResults =>
            let companies := parseCompanies ((lookup "COMPANIES").getD defaultCompanies)
            let roleQuery := (lookup "ROLE_QUERY").getD defaultRoleQuery
            let sitesHint := (lookup "SITES_HINT").getD defaultSitesHint
            let daysStr := (lookup "DAYS").getD "2"
            match pyInt daysStr with
            | none => Except.error (ConfigError.badInt "DAYS" daysStr)
            | some days =>
              Except.ok
                { SERPAPI_KEY := serpapiKey
                  OPENAI_API_KEY := openaiKey
                  GMAIL_USER := gmailUser
                  GMAIL_APP_PASSWORD := gmailAppPassword
                  TO_EMAIL := toEmail
                  MAX_RESULTS := maxResults
                  COMPANIES := companies
                  ROLE_QUERY := roleQuery
                  SITES_HINT := sitesHint
                  DAYS := days }

/-- Externally observable outcome of one process run: exit status, the lines
written to the two standard streams, how many calls reached each external
network boundary, and the data the run produced. -/
structure RunResult where
  exitCode : Nat
  stderr : List String
  stdout : List String
  searchCalls : Nat
  llmCalls : Nat
  mailCalls : Nat
  jobs : List Job
  deduped : List Job
  digest : Option String
  subject : Option String

/-- Lines 78-178 of `main` after configuration succeeded: aggregate, dedup,
truncate, enrich, render, send.  `search`/`gen` are the network oracles and
`now` the formatted timestamp. -/
def runPipeline (cfg : Config)
    (search : String → Except String (List (Except String RawItem)))
    (gen : Job → Except String String) (now : String) : RunResult :=
  let agg := aggregate search cfg.MAX_RESULTS cfg.ROLE_QUERY cfg.SITES_HINT cfg.COMPANIES
  let deduped := dedup agg.1
  let capped := pySliceTo cfg.MAX_RESULTS deduped
  let enriched := enrich cfg.OPENAI_API_KEY gen capped
  { exitCode := 0
    stderr := agg.2.2
    stdout := ["Sent digest to " ++ cfg.TO_EMAIL ++ " with " ++ toString enriched.length ++ " jobs."]
    searchCalls := agg.2.1.length
    llmCalls := if pyTruthy cfg.OPENAI_API_KEY then enriched.length else 0
    mailCalls := 1
    jobs := enriched
    deduped := deduped
    digest := some (renderBody enriched now)
    subject := some (subjectLine enriched.length now) }

/-- The whole of `main`: configuration first; a missing required variable
prints its message and exits with status 1 before the pipeline (and hence
before any network call); an unparseable integer raises an uncaught
`ValueError`, likewise before any network call. -/
def mainRun (lookup : String → Option String)
    (search : String → Except String (List (Except String RawItem)))
    (gen : Job → Except String String) (now : String) : RunResult :=
  match loadConfig lookup with
  | Except.error (ConfigError.missingVar name) =>
      { exitCode := 1
        stderr := ["Missing required env var: " ++ name]
        stdout := []
        searchCalls := 0, llmCalls := 0, mailCalls := 0
        jobs := [], deduped := [], digest := none, subject := none }
  | Except.error (ConfigError.badInt name value) =>
      { exitCode := 1
        stderr := ["ValueError: invalid literal for int() with base 10: " ++ value]
        stdout := []
        searchCalls := 0, llmCalls := 0, mailCalls := 0
        jobs := [], deduped := [], digest := none, subject := none }
  | Except.ok cfg => runPipeline cfg search gen now

/-- A minimal job record for concrete test inputs. -/
def mkJob (t c : String) : Job :=
  { title := some t, company_name := some c, location := none, via := none,
    extensions := [], description := "", apply_link := none, job_id := none,
    outreach := none }

/-- Concrete raw item whose only link source is a related-links entry whose
`link` value is the empty string. -/
def relEmptyLinkItem : RawItem :=
  { title := none, company_name := none, location := none,
    detected_extensions := none, description := none, job_id := none,
    apply_options := none, related_links := some [{ link := some "" }],
    share_link := none }

/-- Concrete raw item with only a (non-empty) related-links entry, plus a
share link that should lose to it. -/
def relLinkItem : RawItem :=
  { title := none, company_name := none, location := none,
    detected_extensions := none, description := none, job_id := none,
    apply_options := none, related_links := some [{ link := some "R" }],
    share_link := some "S" }

/-- Concrete raw item whose apply-options list is non-empty but whose first
entry lacks a `link` field, while fallback sources are present. -/
def noLinkOptionsItem : RawItem :=
  { title := none, company_name := none, location := none,
    detected_extensions := none, description := none, job_id := none,
    apply_options := some [{ link := none }],
    related_links := some [{ link := some "R" }],
    share_link := some "S" }

/-- Concrete raw item carrying its own company name. -/
def namedCompanyItem : RawItem :=
  { title := some "T", company_name := some (some "Zed"), location := none,
    detected_extensions := none, description := none, job_id := none,
    apply_options := none, related_links := none, share_link := none }

/-- A minimal well-formed raw item used by concrete oracles. -/
def plainItem : RawItem :=
  { title := some "Backend Engineer", company_name := some (some "Acme"),
    location := some "Remote", detected_extensions := none,
    description := some "desc", job_id := some "id1",
    apply_options := none, related_links := none, share_link := some "S" }

/-- Search oracle answering every query with one well-formed item. -/
def oneItemSearch : String → Except String (List (Except String RawItem)) :=
  fun _ => Except.ok [Except.ok plainItem]

/-- Search oracle whose batches contain a well-formed item followed by a
malformed one (on which normalization raises). -/
def badBatchSearch : String → Except String (List (Except String RawItem)) :=
  fun _ => Except.ok [Except.ok plainItem, Except.error "boom"]

/-- Search oracle on which every call raises. -/
def failSearch : String → Except String (List (Except String RawItem)) :=
  fun _ => Except.error "down"

/-- Language-model oracle on which every request raises. -/
def failGen : Job → Except String String :=
  fun _ => Except.error "quota"

/-- An environment with no variables set at all. -/
def emptyLookup : String → Option String :=
  fun _ => none

/-- A complete valid environment apart from `DAYS` and the optional key. -/
def baseLookup : String → Option String := fun n =>
  if n = "SERPAPI_KEY" then some "sk" else
  if n = "GMAIL_USER" then some "user@example.com" else
  if n = "GMAIL_APP_PASSWORD" then some "pw" else
  if n = "TO_EMAIL" then some "to@example.com" else none

/-- `baseLookup` with `DAYS` additionally set to the given string. -/
def lookupWithDays (d : String) : String → Option String := fun n =>
  if n = "DAYS" then some d else baseLookup n

/-- Claim C2: for every record list (any size, including empty) and any
nonnegative configured cap, the dedup-and-truncate output of lines 108-117
has length at most `MAX_RESULTS`. -/
theorem dedup_truncate_cap (maxResults : Int) (jobs : List Job)
    (h : 0 ≤ maxResults) :
    ((pySliceTo maxResults (dedup jobs)).length : Int) ≤ maxResults := by
  unfold pySliceTo
  rw [if_pos h]
  have h1 : (List.take maxResults.toNat (dedup jobs)).length ≤ maxResults.toNat :=
    List.length_take_le _ _
  calc ((List.take maxResults.toNat (dedup jobs)).length : Int)
      ≤ (maxResults.toNat : Int) := by exact_mod_cast h1
    _ = maxResults := Int.toNat_of_nonneg h

/-- Witness for `dedup_truncate_cap` at cap 2 and a three-record input. -/
theorem dedup_truncate_cap_witness :
    ((pySliceTo 2 (dedup [mkJob "A" "X", mkJob "B" "Y", mkJob "C" "Z"])).length : Int) ≤ 2 :=
  dedup_truncate_cap 2 [mkJob "A" "X", mkJob "B" "Y", mkJob "C" "Z"] (by decide)

/-- Counterexample to claim C3 as stated: with no apply-options and only a
related-links entry present, the claim says `apply_link` equals that entry's
link; the code instead treats the empty-string link as falsy and falls
through, yielding `None` here. -/
theorem apply_link_chain_counterexample :
    relEmptyLinkItem.apply_options = none ∧
    relEmptyLinkItem.share_link = none ∧
    firstRelatedLink relEmptyLinkItem = some "" ∧
    (normalizeItem "Google" relEmptyLinkItem).apply_link ≠ some "" := by
  refine ⟨rfl, rfl, rfl, ?_⟩
  decide

/-- Claim C3 (amended): the apply-link priority chain, with the proviso the
code forces: a non-empty apply-options list always wins (its first entry's
link, even when absent); otherwise the first related-links entry's link is
used only when it is present and non-empty; otherwise (related link absent or
empty) the share-link field is used, so the result is null only when that too
is absent. -/
theorem apply_link_priority_chain (company : String) (item : RawItem) :
    (∀ e rest, item.apply_options = some (e :: rest) →
      (normalizeItem company item).apply_link = e.link)
  ∧ (item.apply_options.getD [] = [] → ∀ s, firstRelatedLink item = some s → s ≠ "" →
      (normalizeItem company item).apply_link = some s)
  ∧ (item.apply_options.getD [] = [] →
      (firstRelatedLink item = none ∨ firstRelatedLink item = some "") →
      (normalizeItem company item).apply_link = item.share_link) := by
  refine ⟨?_, ?_, ?_⟩
  · intro e rest h
    simp [normalizeItem, h]
  · intro h s hs hne
    simp [normalizeItem, h, pyOrOpt, hs, hne]
  · intro h hrel
    rcases hrel with h' | h' <;> simp [normalizeItem, h, pyOrOpt, h']

/-- Witness for `apply_link_priority_chain`: with only a non-empty
related-links entry (and a share link that must lose), the related link is
chosen. -/
theorem apply_link_priority_chain_witness :
    (normalizeItem "Acme" relLinkItem).apply_link = some "R" :=
  (apply_link_priority_chain "Acme" relLinkItem).2.1 rfl "R" rfl (by decide)

/-- Claim C4: the normalized record's company name is the raw item's
`company_name` value whenever that key is present (even a null value), and
falls back to the company used in the query only when the key is absent. -/
theorem company_name_fallback (company : String) (item : RawItem) :
    (∀ v, item.company_name = some v →
      (normalizeItem company item).company_name = v)
  ∧ (item.company_name = none →
      (normalizeItem company item).company_name = some company) := by
  constructor
  · intro v h
    unfold normalizeItem
    cases item.apply_options.getD [] <;> simp [h]
  · intro h
    unfold normalizeItem
    cases item.apply_options.getD [] <;> simp [h]

/-- Witness for `company_name_fallback`: a raw company name overrides the
queried company. -/
theorem company_name_fallback_witness :
    (normalizeItem "Acme" namedCompanyItem).company_name = some "Zed" :=
  (company_name_fallback "Acme" namedCompanyItem).1 (some "Zed") rfl

/-- Claim C10: when the apply-options list is non-empty but its first entry
has no link field, the normalized `apply_link` is null — the related-links
and share-link fallbacks are never consulted. -/
theorem apply_options_first_entry_without_link (company : String)
    (item : RawItem) (e : LinkEntry) (rest : List LinkEntry)
    (h1 : item.apply_options = some (e :: rest)) (h2 : e.link = none) :
    (normalizeItem company item).apply_link = none := by
  simp [normalizeItem, h1, h2]

/-- Witness for `apply_options_first_entry_without_link`: the fallbacks are
present yet unused. -/
theorem apply_options_first_entry_without_link_witness :
    (normalizeItem "Acme" noLinkOptionsItem).apply_link = none :=
  apply_options_first_entry_without_link "Acme" noLinkOptionsItem
    { link := none } [] rfl rfl

/-- Claim C8: with no (truthy) language-model credential every record's
outreach field becomes the one fixed placeholder; with a credential, a record
whose generation request fails gets a placeholder embedding the error text,
the batch keeps its length, and every other record is still enriched in
place (the loop never aborts). -/
theorem outreach_enrichment (key : Option String)
    (gen : Job → Except String String) (jobs : List Job) :
    (enrich key gen jobs).length = jobs.length
  ∧ (pyTruthy key = false →
      ∀ j' ∈ enrich key gen jobs, j'.outreach = some noKeyPlaceholder)
  ∧ (pyTruthy key = true →
      ∀ (i : Nat) (j : Job) (e : String), jobs[i]? = some j → gen j = Except.error e →
        (enrich key gen jobs)[i]? =
          some { j with outreach := some (genErrorPlaceholder e) })
  ∧ (∀ (i : Nat) (j : Job), jobs[i]? = some j →
      (enrich key gen jobs)[i]? = some (enrichJob key gen j)) := by
  refine ⟨by simp [enrich], ?_, ?_, ?_⟩
  · intro hk j' hj'
    rcases List.mem_map.mp hj' with ⟨j, hj, rfl⟩
    simp [enrichJob, hk]
  · intro hk i j e hij hgen
    simp [enrich, List.getElem?_map, hij, enrichJob, hk, hgen]
  · intro i j hij
    simp [enrich, List.getElem?_map, hij]

/-- Witness for `outreach_enrichment`: one failing record in a two-record
batch gets the error placeholder while the batch survives. -/
theorem outreach_enrichment_witness :
    (enrich (some "k") failGen [mkJob "A" "X", mkJob "B" "Y"])[1]? =
      some { mkJob "B" "Y" with outreach := some (genErrorPlaceholder "quota") } :=
  (outreach_enrichment (some "k") failGen [mkJob "A" "X", mkJob "B" "Y"]).2.2.1
    rfl 1 (mkJob "B" "Y") "quota" rfl rfl

theorem firstSeen_nil {α : Type} [DecidableEq α] : firstSeen ([] : List α) = [] := by
  simp [firstSeen]

theorem firstSeen_cons {α : Type} [DecidableEq α] (k : α) (rest : List α) :
    firstSeen (k :: rest) = k :: firstSeen (rest.filter (fun x => x ≠ k)) := by
  simp [firstSeen]

theorem mem_firstSeen {α : Type} [DecidableEq α] (l : List α) (a : α) :
    a ∈ firstSeen l ↔ a ∈ l := by
  induction l using firstSeen.induct with
  | case1 => simp [firstSeen_nil]
  | case2 k rest ih =>
    rw [firstSeen_cons]
    by_cases h : a = k
    · simp [h]
    · simp only [List.mem_cons, ih, List.mem_filter]
      constructor
      · rintro (rfl | ⟨hmem, _⟩)
        · exact Or.inl rfl
        · exact Or.inr hmem
      · rintro (rfl | hmem)
        · exact Or.inl rfl
        · exact Or.inr ⟨hmem, by simpa using h⟩

theorem firstSeen_nodup {α : Type} [DecidableEq α] (l : List α) :
    (firstSeen l).Nodup := by
  induction l using firstSeen.induct with
  | case1 => simp [firstSeen_nil]
  | case2 k rest ih =>
    rw [firstSeen_cons]
    refine List.Nodup.cons ?_ ih
    intro hk
    have := (mem_firstSeen _ _).mp hk
    simp at this

theorem dedupAux_sublist (jobs : List Job) :
    ∀ seen, (dedupAux jobs seen).Sublist jobs := by
  induction jobs with
  | nil => intro seen; simp [dedupAux]
  | cons j rest ih =>
    intro seen
    by_cases h : jobKey j ∈ seen
    · simpa [dedupAux, h] using (ih seen).cons j
    · simp only [dedupAux, if_neg h]
      exact (ih _).cons₂ j

theorem dedupAux_map_key (jobs : List Job) :
    ∀ seen, (dedupAux jobs seen).map jobKey
      = firstSeen ((jobs.filter (fun j => jobKey j ∉ seen)).map jobKey) := by
  induction jobs with
  | nil => intro seen; simp [dedupAux, firstSeen_nil]
  | cons j rest ih =>
    intro seen
    by_cases h : jobKey j ∈ seen
    · rw [show dedupAux (j :: rest) seen = dedupAux rest seen by simp [dedupAux, h]]
      rw [ih seen]
      congr 2
      simp [List.filter_cons, h]
    · rw [show dedupAux (j :: rest) seen = j :: dedupAux rest (jobKey j :: seen) by
        simp [dedupAux, h]]
      rw [List.map_cons, ih (jobKey j :: seen)]
      rw [show (j :: rest).filter (fun j' => decide (jobKey j' ∉ seen))
            = j :: rest.filter (fun j' => decide (jobKey j' ∉ seen)) by
        simp [List.filter_cons, h]]
      rw [List.map_cons, firstSeen_cons]
      congr 1
      rw [List.filter_map, List.filter_filter]
      congr 1
      congr 1
      apply List.filter_congr
      intro x hx
      by_cases h1 : jobKey x = jobKey j <;> by_cases h2 : jobKey x ∈ seen <;>
        simp [h1, h2, Function.comp]

theorem nodup_countP_eq_one {α : Type} [DecidableEq α] (l : List α)
    (h : l.Nodup) (a : α) (ha : a ∈ l) :
    l.countP (fun x => decide (x = a)) = 1 := by
  induction l with
  | nil => cases ha
  | cons b t ih =>
    rw [List.countP_cons]
    rcases List.mem_cons.mp ha with rfl | hat
    · have hb : a ∉ t := (List.nodup_cons.mp h).1
      have ht : t.countP (fun x => decide (x = a)) = 0 := by
        apply List.countP_eq_zero.mpr
        intro x hx
        simp only [decide_eq_true_eq]
        intro hxa
        exact hb (hxa ▸ hx)
      simp [ht]
    · have hba : b ≠ a := by
        rintro rfl
        exact (List.nodup_cons.mp h).1 hat
      have := ih (List.nodup_cons.mp h).2 hat
      simp [this, hba]

theorem dedup_map_key (jobs : List Job) :
    (dedup jobs).map jobKey = firstSeen (jobs.map jobKey) := by
  rw [dedup, dedupAux_map_key]
  congr 2
  simp

theorem dedupAux_find? (jobs : List Job) :
    ∀ seen j', j' ∈ dedupAux jobs seen →
      jobKey j' ∉ seen ∧ jobs.find? (fun j => jobKey j == jobKey j') = some j' := by
  induction jobs with
  | nil => intro seen j' hj'; simp [dedupAux] at hj'
  | cons j rest ih =>
    intro seen j' hj'
    by_cases h : jobKey j ∈ seen
    · rw [show dedupAux (j :: rest) seen = dedupAux rest seen by simp [dedupAux, h]] at hj'
      obtain ⟨hns, hf⟩ := ih seen j' hj'
      refine ⟨hns, ?_⟩
      rw [List.find?_cons_of_neg _ ?_]
      · exact hf
      · simp only [beq_iff_eq]
        intro he
        exact hns (he ▸ h)
    · rw [show dedupAux (j :: rest) seen = j :: dedupAux rest (jobKey j :: seen) by
        simp [dedupAux, h]] at hj'
      rcases List.mem_cons.mp hj' with rfl | hmem
      · refine ⟨h, ?_⟩
        rw [List.find?_cons_of_pos _ (by simp)]
      · obtain ⟨hns, hf⟩ := ih (jobKey j :: seen) j' hmem
        refine ⟨fun hs => hns (List.mem_cons_of_mem _ hs), ?_⟩
        rw [List.find?_cons_of_neg _ ?_]
        · exact hf
        · simp only [beq_iff_eq]
          intro he
          exact hns (by simp [he])

/-- Claim C1: deduplication (before truncation) keeps a sublist of the input
whose key sequence lists each distinct `(title, company_name)` pair exactly
once in order of first occurrence, and every surviving record is the
first-occurring record of its pair. -/
theorem dedup_spec (jobs : List Job) :
    (dedup jobs).Sublist jobs
  ∧ (dedup jobs).map jobKey = firstSeen (jobs.map jobKey)
  ∧ (∀ k ∈ jobs.map jobKey,
      ((dedup jobs).map jobKey).countP (fun x => decide (x = k)) = 1)
  ∧ (∀ j' ∈ dedup jobs, jobs.find? (fun j => jobKey j == jobKey j') = some j') := by
  refine ⟨dedupAux_sublist jobs [], dedup_map_key jobs, ?_, ?_⟩
  · intro k hk
    rw [dedup_map_key]
    exact nodup_countP_eq_one _ (firstSeen_nodup _) k ((mem_firstSeen _ _).mpr hk)
  · intro j' hj'
    exact (dedupAux_find? jobs [] j' hj').2

/-- Witness for `dedup_spec`: a duplicated pair is kept exactly once. -/
theorem dedup_spec_witness :
    ((dedup [mkJob "A" "X", mkJob "A" "X"]).map jobKey).countP
      (fun x => decide (x = jobKey (mkJob "A" "X"))) = 1 :=
  (dedup_spec [mkJob "A" "X", mkJob "A" "X"]).2.2.1
    (jobKey (mkJob "A" "X")) (by decide)

theorem prefixJobs_nil (search : String → Except String (List (Except String RawItem)))
    (rq sh : String) : prefixJobs search rq sh [] = [] := by
  simp [prefixJobs]

theorem prefixJobs_cons (search : String → Except String (List (Except String RawItem)))
    (rq sh c : String) (cs : List String) :
    prefixJobs search rq sh (c :: cs)
      = companyBatch search rq sh c ++ prefixJobs search rq sh cs := by
  simp [prefixJobs]

theorem aggregateAux_called_take
    (search : String → Except String (List (Except String RawItem)))
    (m : Int) (rq sh : String) :
    ∀ (companies : List String) (jobs : List Job),
      (aggregateAux search m rq sh companies jobs).2.1
        = companies.take (aggregateAux search m rq sh companies jobs).2.1.length := by
  intro companies
  induction companies with
  | nil => intro jobs; simp [aggregateAux]
  | cons c rest ih =>
    intro jobs
    simp only [aggregateAux]
    split
    · simp
    · simp only [List.length_cons, List.take_succ_cons]
      exact congrArg (List.cons c) (ih _)

theorem aggregateAux_below_cap
    (search : String → Except String (List (Except String RawItem)))
    (m : Int) (rq sh : String) :
    ∀ (companies : List String) (jobs : List Job) (k : Nat),
      0 < k → k < (aggregateAux search m rq sh companies jobs).2.1.length →
      ((jobs.length + (prefixJobs search rq sh (companies.take k)).length : Nat) : Int) < m := by
  intro companies
  induction companies with
  | nil =>
    intro jobs k hk hlt
    simp [aggregateAux] at hlt
  | cons c rest ih =>
    intro jobs k hk hlt
    simp only [aggregateAux] at hlt
    by_cases hcap : m ≤ ((jobs ++ (companyStep search rq sh c).1).length : Int)
    · rw [if_pos hcap] at hlt
      simp at hlt
      omega
    · rw [if_neg hcap] at hlt
      simp only [List.length_cons] at hlt
      cases k with
      | zero => omega
      | succ k' =>
        rw [List.take_succ_cons, prefixJobs_cons]
        by_cases hk' : 0 < k'
        · have hrec := ih (jobs ++ (companyStep search rq sh c).1) k' hk' (by omega)
          rw [List.length_append] at hrec
          simp only [List.length_append, companyBatch]
          push_cast at hrec ⊢
          omega
        · have hko : k' = 0 := by omega
          subst hko
          rw [List.length_append] at hcap
          simp only [List.take_zero, prefixJobs_nil, List.length_append,
            List.length_nil, companyBatch]
          push_cast at hcap ⊢
          omega

/-- Claim C5: the aggregation loop searches a prefix of the company list
(hence at most N calls, at most one per company, in list order), and an
iteration beyond the first only happens while the accumulator was still
strictly below the cap after every previous iteration. -/
theorem aggregate_search_calls
    (search : String → Except String (List (Except String RawItem)))
    (m : Int) (rq sh : String) (companies : List String) :
    (aggregate search m rq sh companies).2.1.length ≤ companies.length
  ∧ (aggregate search m rq sh companies).2.1
      = companies.take (aggregate search m rq sh companies).2.1.length
  ∧ (∀ k : Nat, 0 < k → k < (aggregate search m rq sh companies).2.1.length →
      ((prefixJobs search rq sh (companies.take k)).length : Int) < m) := by
  refine ⟨?_, aggregateAux_called_take search m rq sh companies [], ?_⟩
  · have h := aggregateAux_called_take search m rq sh companies []
    have hlen := congrArg List.length h
    rw [List.length_take] at hlen
    simp only [aggregate]
    omega
  · intro k hk hlt
    have := aggregateAux_below_cap search m rq sh companies [] k hk hlt
    simpa using this

/-- Witness for `aggregate_search_calls`: with a one-item answer per query
and cap 20, the second call is only made because the accumulator held one
record (below the cap) after the first iteration. -/
theorem aggregate_search_calls_witness :
    ((prefixJobs oneItemSearch "r" "s" (["Google", "Meta"].take 1)).length : Int) < 20 :=
  (aggregate_search_calls oneItemSearch 20 "r" "s" ["Google", "Meta"]).2.2
    1 (by decide) (by decide)

theorem normalizeItems_ok_append_error (c : String) (e : String)
    (tail : List (Except String RawItem)) :
    ∀ pre : List RawItem,
      normalizeItems c (pre.map Except.ok ++ Except.error e :: tail)
        = pre.map (normalizeItem c) := by
  intro pre
  induction pre with
  | nil => simp [normalizeItems]
  | cons i rest ih => simp [normalizeItems, ih]

theorem firstItemError_ok_append_error (e : String)
    (tail : List (Except String RawItem)) :
    ∀ pre : List RawItem,
      firstItemError (pre.map Except.ok ++ Except.error e :: tail) = some e := by
  intro pre
  induction pre with
  | nil => simp [firstItemError]
  | cons i rest ih => simp [firstItemError, ih]

/-- Claim C6 (amended): a failing search call contributes zero records, the
accumulator is unchanged, a warning naming the company is logged (the loop
stops only via the normal cap check), and aggregation continues with the
remaining companies; when normalization raises partway through a batch the
run likewise continues, but the records normalized before the bad item are
kept — only the rest of that company's batch is dropped.  A single company's
failure never aborts the run. -/
theorem aggregate_failure_isolation
    (search : String → Except String (List (Except String RawItem)))
    (m : Int) (rq sh c : String) (rest : List String) (jobs : List Job) :
    (∀ e, search (buildQuery rq sh c) = Except.error e →
      (((jobs.length : Int) < m →
        aggregateAux search m rq sh (c :: rest) jobs
          = ((aggregateAux search m rq sh rest jobs).1,
             c :: (aggregateAux search m rq sh rest jobs).2.1,
             ("[warn] " ++ c ++ " query failed: " ++ e)
               :: (aggregateAux search m rq sh rest jobs).2.2))
       ∧ (m ≤ (jobs.length : Int) →
        aggregateAux search m rq sh (c :: rest) jobs
          = (jobs, [c], ["[warn] " ++ c ++ " query failed: " ++ e]))))
  ∧ (∀ (pre : List RawItem) (e : String) (tail : List (Except String RawItem)),
      search (buildQuery rq sh c) = Except.ok (pre.map Except.ok ++ Except.error e :: tail) →
      ((jobs ++ pre.map (normalizeItem c)).length : Int) < m →
        aggregateAux search m rq sh (c :: rest) jobs
          = ((aggregateAux search m rq sh rest (jobs ++ pre.map (normalizeItem c))).1,
             c :: (aggregateAux search m rq sh rest (jobs ++ pre.map (normalizeItem c))).2.1,
             ("[warn] " ++ c ++ " query failed: " ++ e)
               :: (aggregateAux search m rq sh rest (jobs ++ pre.map (normalizeItem c))).2.2)) := by
  constructor
  · intro e he
    constructor
    · intro hlt
      simp only [aggregateAux, companyStep, he, List.append_nil]
      rw [if_neg (not_le.mpr hlt)]
      simp
    · intro hge
      simp only [aggregateAux, companyStep, he, List.append_nil]
      rw [if_pos hge]
  · intro pre e tail hok hlt
    simp only [aggregateAux, companyStep, hok,
      normalizeItems_ok_append_error, firstItemError_ok_append_error]
    rw [if_neg (not_le.mpr hlt)]
    simp

/-- Witness for `aggregate_failure_isolation`: a company whose search call
raises is skipped with a warning while aggregation proceeds to the next
company. -/
theorem aggregate_failure_isolation_witness :
    aggregateAux failSearch 20 "r" "s" ["A", "B"] []
      = ((aggregateAux failSearch 20 "r" "s" ["B"] []).1,
         "A" :: (aggregateAux failSearch 20 "r" "s" ["B"] []).2.1,
         ("[warn] " ++ "A" ++ " query failed: " ++ "down")
           :: (aggregateAux failSearch 20 "r" "s" ["B"] []).2.2) :=
  (((aggregate_failure_isolation failSearch 20 "r" "s" "A" ["B"] []).1
    "down" rfl).1) (by decide)

/-- Counterexample to claim C6 as stated: when normalization of company A's
response raises on the second item, a warning is logged for A — the claimed
hypothesis holds — yet A contributes one record to the accumulator, not
zero. -/
theorem aggregate_failure_counterexample :
    (aggregate badBatchSearch 20 "r" "s" ["A"]).2.2
      = ["[warn] A query failed: boom"]
  ∧ (aggregate badBatchSearch 20 "r" "s" ["A"]).1
      = [normalizeItem "A" plainItem] := by
  exact ⟨rfl, rfl⟩

theorem envReq_error (lookup : String → Option String) (name : String)
    (h : blankEnv (lookup name) = true) :
    envReq lookup name = Except.error (ConfigError.missingVar name) := by
  cases hl : lookup name with
  | none => simp [envReq, hl]
  | some s =>
    rw [hl] at h
    simp only [blankEnv] at h
    simp [envReq, hl, h]

theorem envReq_ok (lookup : String → Option String) (name : String)
    (h : blankEnv (lookup name) = false) :
    ∃ s, lookup name = some s ∧ envReq lookup name = Except.ok s := by
  cases hl : lookup name with
  | none =>
    rw [hl] at h
    simp [blankEnv] at h
  | some s =>
    rw [hl] at h
    simp only [blankEnv] at h
    exact ⟨s, rfl, by simp [envReq, hl, h]⟩

theorem mainRun_missing (lookup : String → Option String)
    (search : String → Except String (List (Except String RawItem)))
    (gen : Job → Except String String) (now name : String)
    (hc : loadConfig lookup = Except.error (ConfigError.missingVar name)) :
    (mainRun lookup search gen now).exitCode = 1 ∧
    (mainRun lookup search gen now).stderr = ["Missing required env var: " ++ name] ∧
    (mainRun lookup search gen now).searchCalls = 0 ∧
    (mainRun lookup search gen now).llmCalls = 0 ∧
    (mainRun lookup search gen now).mailCalls = 0 := by
  simp [mainRun, hc]

/-- Claim C7: whenever some required environment variable is unset or blank,
the run exits with status 1 and a standard-error message naming a missing
required variable, and no search, language-model, or mail call is ever
attempted (all three call counts are zero). -/
theorem missing_env_no_network (lookup : String → Option String)
    (search : String → Except String (List (Except String RawItem)))
    (gen : Job → Except String String) (now : String)
    (h : ∃ name ∈ requiredVars, blankEnv (lookup name) = true) :
    ∃ name ∈ requiredVars, blankEnv (lookup name) = true ∧
      (mainRun lookup search gen now).exitCode = 1 ∧
      (mainRun lookup search gen now).stderr = ["Missing required env var: " ++ name] ∧
      (mainRun lookup search gen now).searchCalls = 0 ∧
      (mainRun lookup search gen now).llmCalls = 0 ∧
      (mainRun lookup search gen now).mailCalls = 0 := by
  by_cases h1 : blankEnv (lookup "SERPAPI_KEY") = true
  · have hc : loadConfig lookup = Except.error (ConfigError.missingVar "SERPAPI_KEY") := by
      simp [loadConfig, envReq_error lookup _ h1]
    exact ⟨"SERPAPI_KEY", by simp [requiredVars], h1,
      mainRun_missing lookup search gen now _ hc⟩
  · obtain ⟨s1, hl1, he1⟩ := envReq_ok lookup "SERPAPI_KEY" (by simpa using h1)
    by_cases h2 : blankEnv (lookup "GMAIL_USER") = true
    · have hc : loadConfig lookup = Except.error (ConfigError.missingVar "GMAIL_USER") := by
        simp [loadConfig, he1, envReq_error lookup _ h2]
      exact ⟨"GMAIL_USER", by simp [requiredVars], h2,
        mainRun_missing lookup search gen now _ hc⟩
    · obtain ⟨s2, hl2, he2⟩ := envReq_ok lookup "GMAIL_USER" (by simpa using h2)
      by_cases h3 : blankEnv (lookup "GMAIL_APP_PASSWORD") = true
      · have hc : loadConfig lookup
            = Except.error (ConfigError.missingVar "GMAIL_APP_PASSWORD") := by
          simp [loadConfig, he1, he2, envReq_error lookup _ h3]
        exact ⟨"GMAIL_APP_PASSWORD", by simp [requiredVars], h3,
          mainRun_missing lookup search gen now _ hc⟩
      · obtain ⟨s3, hl3, he3⟩ := envReq_ok lookup "GMAIL_APP_PASSWORD" (by simpa using h3)
        by_cases h4 : blankEnv (lookup "TO_EMAIL") = true
        · have hc : loadConfig lookup = Except.error (ConfigError.missingVar "TO_EMAIL") := by
            simp [loadConfig, he1, he2, he3, envReq_error lookup _ h4]
          exact ⟨"TO_EMAIL", by simp [requiredVars], h4,
            mainRun_missing lookup search gen now _ hc⟩
        · exfalso
          obtain ⟨name, hmem, hblank⟩ := h
          simp only [requiredVars, List.mem_cons, List.mem_singleton] at hmem
          rcases hmem with rfl | rfl | rfl | rfl | hfalse
          · exact h1 hblank
          · exact h2 hblank
          · exact h3 hblank
          · exact h4 hblank
          · simp at hfalse

/-- Witness for `missing_env_no_network`: an entirely empty environment. -/
theorem missing_env_no_network_witness :
    ∃ name ∈ requiredVars, blankEnv (emptyLookup name) = true ∧
      (mainRun emptyLookup failSearch failGen "now").exitCode = 1 ∧
      (mainRun emptyLookup failSearch failGen "now").stderr
        = ["Missing required env var: " ++ name] ∧
      (mainRun emptyLookup failSearch failGen "now").searchCalls = 0 ∧
      (mainRun emptyLookup failSearch failGen "now").llmCalls = 0 ∧
      (mainRun emptyLookup failSearch failGen "now").mailCalls = 0 :=
  missing_env_no_network emptyLookup failSearch failGen "now"
    ⟨"SERPAPI_KEY", by simp [requiredVars], rfl⟩

theorem runPipeline_days (cfg : Config) (d : Int)
    (search : String → Except String (List (Except String RawItem)))
    (gen : Job → Except String String) (now : String) :
    runPipeline { cfg with DAYS := d } search gen now = runPipeline cfg search gen now := rfl

theorem loadConfig_agree (l1 l2 : String → Option String) (d1 d2 : Int)
    (hagree : ∀ n, n ≠ "DAYS" → l1 n = l2 n)
    (h1 : pyInt ((l1 "DAYS").getD "2") = some d1)
    (h2 : pyInt ((l2 "DAYS").getD "2") = some d2) :
    loadConfig l1 = Except.map (fun cfg => { cfg with DAYS := d1 }) (loadConfig l2) := by
  have hereq : ∀ name, name ≠ "DAYS" → envReq l1 name = envReq l2 name := by
    intro n hn
    simp [envReq, hagree n hn]
  simp only [loadConfig]
  rw [hereq "SERPAPI_KEY" (by decide), hereq "GMAIL_USER" (by decide),
    hereq "GMAIL_APP_PASSWORD" (by decide), hereq "TO_EMAIL" (by decide),
    hagree "OPENAI_API_KEY" (by decide), hagree "MAX_RESULTS" (by decide),
    hagree "COMPANIES" (by decide), hagree "ROLE_QUERY" (by decide),
    hagree "SITES_HINT" (by decide), h1, h2]
  cases envReq l2 "SERPAPI_KEY" <;>
    cases envReq l2 "GMAIL_USER" <;>
      cases envReq l2 "GMAIL_APP_PASSWORD" <;>
        cases envReq l2 "TO_EMAIL" <;>
          cases pyInt ((l2 "MAX_RESULTS").getD "20") <;>
            simp [Except.map]

/-- Claim C9: two runs whose environments differ only in the `DAYS` value
(both values parsing as integers) and that see identical search responses
produce the same job record list, the same deduplicated output, and the same
rendered digest — the day window influences nothing. -/
theorem days_no_influence (l1 l2 : String → Option String)
    (search : String → Except String (List (Except String RawItem)))
    (gen : Job → Except String String) (now : String)
    (hagree : ∀ n, n ≠ "DAYS" → l1 n = l2 n)
    (h1 : (pyInt ((l1 "DAYS").getD "2")).isSome = true)
    (h2 : (pyInt ((l2 "DAYS").getD "2")).isSome = true) :
    (mainRun l1 search gen now).jobs = (mainRun l2 search gen now).jobs
  ∧ (mainRun l1 search gen now).deduped = (mainRun l2 search gen now).deduped
  ∧ (mainRun l1 search gen now).digest = (mainRun l2 search gen now).digest := by
  obtain ⟨d1, hd1⟩ := Option.isSome_iff_exists.mp h1
  obtain ⟨d2, hd2⟩ := Option.isSome_iff_exists.mp h2
  have hcfg := loadConfig_agree l1 l2 d1 d2 hagree hd1 hd2
  have hmain : mainRun l1 search gen now = mainRun l2 search gen now := by
    rw [mainRun, mainRun, hcfg]
    cases loadConfig l2 with
    | error err => cases err <;> simp [Except.map]
    | ok cfg =>
      simp only [Except.map]
      exact runPipeline_days cfg d1 search gen now
  rw [hmain]
  exact ⟨rfl, rfl, rfl⟩

/-- Witness for `days_no_influence`: day windows 2 and 30 give identical
outputs on the same responses. -/
theorem days_no_influence_witness :
    (mainRun (lookupWithDays "2") oneItemSearch failGen "now").jobs
      = (mainRun (lookupWithDays "30") oneItemSearch failGen "now").jobs
  ∧ (mainRun (lookupWithDays "2") oneItemSearch failGen "now").deduped
      = (mainRun (lookupWithDays "30") oneItemSearch failGen "now").deduped
  ∧ (mainRun (lookupWithDays "2") oneItemSearch failGen "now").digest
      = (mainRun (lookupWithDays "30") oneItemSearch failGen "now").digest :=
  days_no_influence (lookupWithDays "2") (lookupWithDays "30") oneItemSearch failGen "now"
    (fun n hn => by simp [lookupWithDays, hn])
    (by decide) (by decide)
